import Mathlib

/-!
Shallow embedding of the two particle-animation variants:

* `Banner` models `src/unnamed/part_000` (variant A, the forest of tree
  glyphs on the banner canvas).
* `TreeCanvas` models `src/assets/js/tree-canvas.js` (variant B, the single
  statistical tree with link lines).

Numbers are embedded as exact rationals (`ℚ`).  The two operations of the
source that are not rational-valued — `Math.sqrt` inside `step`, and
`x ** 0.75` plus the Box–Muller `randn()` inside `buildTree` — are passed in
as explicit function / stream parameters (`sqrtQ`, `pow34`, gaussian
streams); theorems that depend on their values carry the corresponding
arithmetic hypotheses (`sqrtQ 0 = 0`, `(sqrtQ v)^2 = v`, …).  `Math.random()`
is modelled as a stream `ℕ → ℚ` of draws consumed in program order.
-/

/-- JS `a || b` on numbers, for the source's `d || 1` fallback divisor
(`0` is the only falsy value reachable here, since `d` is a square root). -/
def jsOr (a b : ℚ) : ℚ := if a = 0 then b else a

/-- A simulated node: anchor `(ax, ay)`, current position `(x, y)`,
velocity `(vx, vy)` — the field set both sources use. -/
structure Node where
  ax : ℚ
  ay : ℚ
  x : ℚ
  y : ℚ
  vx : ℚ
  vy : ℚ
deriving Repr, DecidableEq

/-- Pointer state: stored coordinates plus the `active` flag
(`state.mouse` in both sources). -/
structure Mouse where
  x : ℚ
  y : ℚ
  active : Bool
deriving Repr, DecidableEq

/-- `List.map` carrying the element index, used to feed per-node random
draws into a per-node step. -/
def mapIdxGo (f : ℕ → α → β) : ℕ → List α → List β
  | _, [] => []
  | k, a :: as => f k a :: mapIdxGo f (k + 1) as

/-- Map with index starting at 0. -/
def mapIdxQ (f : ℕ → α → β) (l : List α) : List β := mapIdxGo f 0 l

namespace Banner

/-- `CFG.spring` of part_000. -/
def spring : ℚ := 0.055

/-- `CFG.damping` of part_000. -/
def damping : ℚ := 0.86

/-- `CFG.maxSpeed` of part_000. -/
def maxSpeed : ℚ := 7.0

/-- `CFG.hoverRadius` of part_000. -/
def hoverRadius : ℚ := 95

/-- `CFG.repelStrength` of part_000. -/
def repelStrength : ℚ := 1.15

/-- `CFG.noiseStrength` of part_000. -/
def noiseStrength : ℚ := 0.20

/-- `clamp(v, lo, hi) = Math.max(lo, Math.min(hi, v))` of part_000. -/
def clamp (v lo hi : ℚ) : ℚ := max lo (min hi v)

/-- The four `CFG.safeCenter*` bounds of part_000, kept as a record so the
placement theorems quantify over the safe-zone configuration. -/
structure SafeBox where
  xMin : ℚ
  xMax : ℚ
  yMin : ℚ
  yMax : ℚ
deriving Repr, DecidableEq

/-- The concrete `CFG` values `0.34 / 0.66 / 0.22 / 0.78`. -/
def defaultSafeBox : SafeBox := ⟨0.34, 0.66, 0.22, 0.78⟩

/-- `inSafeBox` test of `chooseTreeCenter` (strict inequalities, as in the
source). -/
def inSafeBox (b : SafeBox) (nx ny : ℚ) : Bool :=
  decide (b.xMin < nx) && decide (nx < b.xMax) &&
  decide (b.yMin < ny) && decide (ny < b.yMax)

/-- `edgeBias` predicate of `chooseTreeCenter`:
`nx < 0.2 || nx > 0.8 || ny < 0.25 || ny > 0.85`. -/
def edgeBias (nx ny : ℚ) : Bool :=
  decide (nx < 0.2) || decide (0.8 < nx) || decide (ny < 0.25) || decide (0.85 < ny)

/-- The retry loop of `chooseTreeCenter`.  `tries` is the zero-based loop
counter, `fuel` the number of iterations left (the source runs
`tries = 0 … 39`, so the loop is entered with `fuel = 40`).  `rnd` is the
`Math.random()` stream; iteration `tries` consumes draws `2*tries` and
`2*tries+1`.  A loop acceptance is tagged `Sum.inl (tries, point)`; the
unconditional fallback after the loop is `Sum.inr point` and consumes the
next two draws. -/
def chooseGo (b : SafeBox) (W H : ℚ) (rnd : ℕ → ℚ) :
    ℕ → ℕ → (ℕ × ℚ × ℚ) ⊕ (ℚ × ℚ)
  | tries, 0 => Sum.inr (rnd (2 * tries) * W, rnd (2 * tries + 1) * H)
  | tries, fuel + 1 =>
    let nx := rnd (2 * tries)
    let ny := rnd (2 * tries + 1)
    if !inSafeBox b nx ny && edgeBias nx ny then Sum.inl (tries, nx * W, ny * H)
    else if !inSafeBox b nx ny && decide (15 < tries) then
      Sum.inl (tries, nx * W, ny * H)
    else chooseGo b W H rnd (tries + 1) fuel

/-- `chooseTreeCenter`, keeping the provenance tag (loop acceptance with its
try index, or fallback). -/
def chooseTreeCenterR (b : SafeBox) (W H : ℚ) (rnd : ℕ → ℚ) :
    (ℕ × ℚ × ℚ) ⊕ (ℚ × ℚ) :=
  chooseGo b W H rnd 0 40

/-- `chooseTreeCenter` of part_000: the returned coordinate pair. -/
def chooseTreeCenter (b : SafeBox) (W H : ℚ) (rnd : ℕ → ℚ) : ℚ × ℚ :=
  match chooseTreeCenterR b W H rnd with
  | Sum.inl (_, p) => p
  | Sum.inr p => p

/-- Velocity after the spring block of `step`
(`n.vx += (n.ax - n.x) * CFG.spring`, same for `y`). -/
def springVel (n : Node) : ℚ × ℚ :=
  (n.vx + (n.ax - n.x) * spring, n.vy + (n.ay - n.y) * spring)

/-- Velocity after the pointer-repulsion block of `step`.  `sqrtQ` stands
for `Math.sqrt`; `noise` is the pair of `Math.random()` draws used by the
"subtle scatter" lines (consumed only when repelling, as in the source). -/
def repelVel (sqrtQ : ℚ → ℚ) (m : Mouse) (noise : ℚ × ℚ) (n : Node)
    (v : ℚ × ℚ) : ℚ × ℚ :=
  if m.active then
    let dx := n.x - m.x
    let dy := n.y - m.y
    let d := sqrtQ (dx * dx + dy * dy)
    if d < hoverRadius then
      let t := 1 - d / hoverRadius
      let f := t * t * repelStrength
      let nx := dx / jsOr d 1
      let ny := dy / jsOr d 1
      (v.1 + nx * f * 16 + (noise.1 - 0.5) * noiseStrength,
       v.2 + ny * f * 16 + (noise.2 - 0.5) * noiseStrength)
    else v
  else v

/-- One per-node tick of part_000's `step`: spring, repulsion, damping,
per-component clamp, integration `pos += v * (dt * 60)`. -/
def stepNode (sqrtQ : ℚ → ℚ) (m : Mouse) (noise : ℚ × ℚ) (dt : ℚ)
    (n : Node) : Node :=
  let v1 := springVel n
  let v2 := repelVel sqrtQ m noise n v1
  let vx3 := v2.1 * damping
  let vy3 := v2.2 * damping
  let vx4 := clamp vx3 (-maxSpeed) maxSpeed
  let vy4 := clamp vy3 (-maxSpeed) maxSpeed
  { n with vx := vx4, vy := vy4,
           x := n.x + vx4 * (dt * 60), y := n.y + vy4 * (dt * 60) }

/-- The divisors evaluated by the repulsion block of one per-node tick
(`d / CFG.hoverRadius`, `dx / (d || 1)`, `dy / (d || 1)`); empty when the
block is not entered.  A division by zero is the only way this tick could
produce a non-finite value. -/
def stepDivisors (sqrtQ : ℚ → ℚ) (m : Mouse) (n : Node) : List ℚ :=
  if m.active then
    let dx := n.x - m.x
    let dy := n.y - m.y
    let d := sqrtQ (dx * dx + dy * dy)
    if d < hoverRadius then [hoverRadius, jsOr d 1, jsOr d 1] else []
  else []

/-- Comparison definition following the spec's words: the per-node tick in
which the repulsion term contributes nothing — spring, damping, clamp and
integration only. -/
def stepNodeNoRepel (dt : ℚ) (n : Node) : Node :=
  let v1 := springVel n
  let vx3 := v1.1 * damping
  let vy3 := v1.2 * damping
  let vx4 := clamp vx3 (-maxSpeed) maxSpeed
  let vy4 := clamp vy3 (-maxSpeed) maxSpeed
  { n with vx := vx4, vy := vy4,
           x := n.x + vx4 * (dt * 60), y := n.y + vy4 * (dt * 60) }

/-- The repulsion force magnitude of part_000 as a function of the node's
distance `d` to the pointer: the `f = t * t * CFG.repelStrength` computed
inside the `d < CFG.hoverRadius` branch, and zero outside the branch (no
force is applied there). -/
def forceMag (d : ℚ) : ℚ :=
  if d < hoverRadius then
    (1 - d / hoverRadius) * (1 - d / hoverRadius) * repelStrength
  else 0

/-- The coordinate pair of a `chooseTreeCenter` outcome, loop acceptance or
fallback. -/
def pointOf (r : (ℕ × ℚ × ℚ) ⊕ (ℚ × ℚ)) : ℚ × ℚ :=
  match r with
  | Sum.inl (_, p) => p
  | Sum.inr p => p

/-- A tree of part_000's `state.trees`: center, scale and its nodes. -/
structure Tree where
  cx : ℚ
  cy : ℚ
  scale : ℚ
  nodes : List Node
deriving Repr, DecidableEq

/-- `step` over one tree: the per-node tick applied to every node, the
per-node noise draws supplied by index. -/
def stepTree (sqrtQ : ℚ → ℚ) (m : Mouse) (noiseF : ℕ → ℚ × ℚ) (dt : ℚ)
    (tr : Tree) : Tree :=
  { tr with nodes := mapIdxQ (fun i n => stepNode sqrtQ m (noiseF i) dt n) tr.nodes }

/-- `step(dt)` of part_000 over the whole forest. -/
def step (sqrtQ : ℚ → ℚ) (m : Mouse) (noiseF : ℕ → ℕ → ℚ × ℚ) (dt : ℚ)
    (ts : List Tree) : List Tree :=
  mapIdxQ (fun ti tr => stepTree sqrtQ m (noiseF ti) dt tr) ts

/-- Iterated per-node ticks, one per entry of `dts` (pointer state, noise
and `sqrtQ` held fixed): a run of the integrator on one node. -/
def runNode (sqrtQ : ℚ → ℚ) (m : Mouse) (noise : ℚ × ℚ) (dts : List ℚ)
    (n : Node) : Node :=
  dts.foldl (fun acc dt => stepNode sqrtQ m noise dt acc) n

end Banner

namespace TreeCanvas

/-- `CFG.canopyNodes` of tree-canvas.js. -/
def canopyNodes : ℕ := 220

/-- `CFG.trunkNodes` of tree-canvas.js. -/
def trunkNodes : ℕ := 45

/-- `CFG.repelRadius` of tree-canvas.js. -/
def repelRadius : ℚ := 110

/-- `CFG.repelStrength` of tree-canvas.js. -/
def repelStrength : ℚ := 0.55

/-- `CFG.returnStrength` of tree-canvas.js. -/
def returnStrength : ℚ := 0.06

/-- `CFG.damping` of tree-canvas.js. -/
def damping : ℚ := 0.86

/-- `CFG.linkDist` of tree-canvas.js. -/
def linkDist : ℚ := 34

/-- `CFG.linkAlpha` of tree-canvas.js. -/
def linkAlpha : ℚ := 0.22

/-- `makeNode(x, y)` of tree-canvas.js: anchor and position both `(x, y)`,
velocity zero. -/
def makeNode (x y : ℚ) : Node :=
  { ax := x, ay := y, x := x, y := y, vx := 0, vy := 0 }

/-- One canopy node of `buildTree`: `t` is the `Math.random()` height
fraction, `g` the `randn()` draw, `pow34 z` stands for `z ** 0.75`. -/
def canopyNode (W H : ℚ) (pow34 : ℚ → ℚ) (t g : ℚ) : Node :=
  let y := H * (0.2 + 0.65 * (1 - t))
  let halfWidth := (W * 0.22) * (0.25 + pow34 (1 - t))
  let x := W / 2 + g * halfWidth
  makeNode x y

/-- One trunk node of `buildTree` at loop index `i`, `g` the `randn()`
draw. -/
def trunkNode (W H : ℚ) (i : ℕ) (g : ℚ) : Node :=
  let t : ℚ := (i : ℚ) / (max 1 (trunkNodes - 1) : ℕ)
  let y := H * (0.88 - 0.55 * t)
  let x := W / 2 + g * (W * 0.012)
  makeNode x y

/-- `buildTree()` of tree-canvas.js: `canopyNodes` canopy nodes followed by
`trunkNodes` trunk nodes.  `tS` is the stream of uniform height fractions,
`gS` the stream of `randn()` draws (one per node, in program order). -/
def buildTree (W H : ℚ) (pow34 : ℚ → ℚ) (tS gS : ℕ → ℚ) : List Node :=
  (List.range canopyNodes).map (fun i => canopyNode W H pow34 (tS i) (gS i)) ++
  (List.range trunkNodes).map (fun i => trunkNode W H i (gS (canopyNodes + i)))

/-- Velocity after the anchor-pull block of `step`
(`n.vx += toAx * CFG.returnStrength`, same for `y`). -/
def springVel (n : Node) : ℚ × ℚ :=
  (n.vx + (n.ax - n.x) * returnStrength, n.vy + (n.ay - n.y) * returnStrength)

/-- Velocity after the mouse-repulsion block of `step`.  Note: unlike the
banner variant, this block never consults `m.active` — exactly as in the
source, which reads only `state.mouse.x/y` inside `step`. -/
def repelVel (sqrtQ : ℚ → ℚ) (m : Mouse) (n : Node) (v : ℚ × ℚ) : ℚ × ℚ :=
  let dx := n.x - m.x
  let dy := n.y - m.y
  let d := sqrtQ (dx * dx + dy * dy)
  if d < repelRadius then
    let f := (1 - d / repelRadius) * repelStrength
    let nx := dx / jsOr d 1
    let ny := dy / jsOr d 1
    (v.1 + nx * f * 18, v.2 + ny * f * 18)
  else v

/-- One per-node tick of tree-canvas.js's `step`: anchor pull, repulsion,
damping, integration.  There is no speed clamp in this variant. -/
def stepNode (sqrtQ : ℚ → ℚ) (m : Mouse) (dt : ℚ) (n : Node) : Node :=
  let v1 := springVel n
  let v2 := repelVel sqrtQ m n v1
  let vx3 := v2.1 * damping
  let vy3 := v2.2 * damping
  { n with vx := vx3, vy := vy3,
           x := n.x + vx3 * (dt * 60), y := n.y + vy3 * (dt * 60) }

/-- The divisors evaluated by the repulsion block of one per-node tick
(`d / CFG.repelRadius`, `dx / (d || 1)`, `dy / (d || 1)`); empty when the
block is not entered. -/
def stepDivisors (sqrtQ : ℚ → ℚ) (m : Mouse) (n : Node) : List ℚ :=
  let dx := n.x - m.x
  let dy := n.y - m.y
  let d := sqrtQ (dx * dx + dy * dy)
  if d < repelRadius then [repelRadius, jsOr d 1, jsOr d 1] else []

/-- Comparison definition following the spec's words: the per-node tick in
which the repulsion term contributes nothing — anchor pull, damping and
integration only (this variant has no clamp). -/
def stepNodeNoRepel (dt : ℚ) (n : Node) : Node :=
  let v1 := springVel n
  let vx3 := v1.1 * damping
  let vy3 := v1.2 * damping
  { n with vx := vx3, vy := vy3,
           x := n.x + vx3 * (dt * 60), y := n.y + vy3 * (dt * 60) }

/-- The repulsion force magnitude of tree-canvas.js as a function of the
node's distance `d` to the pointer: the
`f = (1 - d / CFG.repelRadius) * CFG.repelStrength` computed inside the
`d < CFG.repelRadius` branch, and zero outside the branch. -/
def forceMag (d : ℚ) : ℚ :=
  if d < repelRadius then (1 - d / repelRadius) * repelStrength else 0

/-- `step(dt)` of tree-canvas.js over the whole node list. -/
def step (sqrtQ : ℚ → ℚ) (m : Mouse) (dt : ℚ) (ns : List Node) : List Node :=
  ns.map (stepNode sqrtQ m dt)

/-- `CFG.linkDist * CFG.linkDist`, the squared link-distance threshold of
`draw`. -/
def linkMax2 : ℚ := linkDist * linkDist

/-- The per-pair law of `draw`'s link loop: `some alpha` when a segment is
drawn between `a` and `b` (squared distance strictly below `linkMax2`),
`none` when no segment is drawn. -/
def linkDraw (a b : Node) : Option ℚ :=
  let dx := a.x - b.x
  let dy := a.y - b.y
  let d2 := dx * dx + dy * dy
  if d2 < linkMax2 then some (linkAlpha * (1 - d2 / linkMax2)) else none

end TreeCanvas

/-! ## Helper lemmas -/

theorem mapIdxGo_length (f : ℕ → α → β) :
    ∀ (l : List α) (k : ℕ), (mapIdxGo f k l).length = l.length
  | [], _ => rfl
  | _ :: as, k => by simp [mapIdxGo, mapIdxGo_length f as (k + 1)]

theorem mapIdxGo_getElem? (f : ℕ → α → β) :
    ∀ (l : List α) (k i : ℕ), (mapIdxGo f k l)[i]? = (l[i]?).map (f (k + i))
  | [], _, _ => by simp [mapIdxGo]
  | _ :: _, _, 0 => by simp [mapIdxGo]
  | _ :: as, k, i + 1 => by
    have h : k + 1 + i = k + (i + 1) := by omega
    simp only [mapIdxGo, List.getElem?_cons_succ, mapIdxGo_getElem? f as (k + 1) i, h]

theorem mapIdxQ_length (f : ℕ → α → β) (l : List α) :
    (mapIdxQ f l).length = l.length := mapIdxGo_length f l 0

theorem mapIdxQ_getElem? (f : ℕ → α → β) (l : List α) (i : ℕ) :
    (mapIdxQ f l)[i]? = (l[i]?).map (f i) := by
  have h := mapIdxGo_getElem? f l 0 i
  simpa [mapIdxQ] using h

theorem clamp_mem {v lo hi : ℚ} (h : lo ≤ hi) :
    lo ≤ Banner.clamp v lo hi ∧ Banner.clamp v lo hi ≤ hi :=
  ⟨le_max_left _ _, max_le h (min_le_left _ _)⟩

theorem frac_mul_bounds {r L : ℚ} (h0 : 0 ≤ r) (h1 : r < 1) (hL : 0 < L) :
    0 ≤ r * L ∧ r * L < L := by
  refine ⟨mul_nonneg h0 hL.le, ?_⟩
  calc r * L < 1 * L := mul_lt_mul_of_pos_right h1 hL
  _ = L := one_mul L

theorem chooseGo_bounds (b : Banner.SafeBox) (W H : ℚ) (rnd : ℕ → ℚ)
    (hr : ∀ i, 0 ≤ rnd i ∧ rnd i < 1) (hW : 0 < W) (hH : 0 < H) :
    ∀ (fuel tries : ℕ),
      0 ≤ (Banner.pointOf (Banner.chooseGo b W H rnd tries fuel)).1 ∧
        (Banner.pointOf (Banner.chooseGo b W H rnd tries fuel)).1 < W ∧
        0 ≤ (Banner.pointOf (Banner.chooseGo b W H rnd tries fuel)).2 ∧
        (Banner.pointOf (Banner.chooseGo b W H rnd tries fuel)).2 < H := by
  intro fuel
  induction fuel with
  | zero =>
    intro tries
    have h1 := frac_mul_bounds (hr (2 * tries)).1 (hr (2 * tries)).2 hW
    have h2 := frac_mul_bounds (hr (2 * tries + 1)).1 (hr (2 * tries + 1)).2 hH
    simpa [Banner.chooseGo, Banner.pointOf] using ⟨h1.1, h1.2, h2.1, h2.2⟩
  | succ fuel ih =>
    intro tries
    have h1 := frac_mul_bounds (hr (2 * tries)).1 (hr (2 * tries)).2 hW
    have h2 := frac_mul_bounds (hr (2 * tries + 1)).1 (hr (2 * tries + 1)).2 hH
    simp only [Banner.chooseGo]
    split
    · simpa [Banner.pointOf] using ⟨h1.1, h1.2, h2.1, h2.2⟩
    · split
      · simpa [Banner.pointOf] using ⟨h1.1, h1.2, h2.1, h2.2⟩
      · exact ih (tries + 1)

theorem chooseGo_congr (b : Banner.SafeBox) (W H : ℚ) :
    ∀ (fuel tries : ℕ) (rnd rnd' : ℕ → ℚ),
      (∀ i, i < 2 * (tries + fuel) + 2 → rnd i = rnd' i) →
      Banner.chooseGo b W H rnd tries fuel = Banner.chooseGo b W H rnd' tries fuel := by
  intro fuel
  induction fuel with
  | zero =>
    intro tries rnd rnd' h
    have e1 : rnd (2 * tries) = rnd' (2 * tries) := h _ (by omega)
    have e2 : rnd (2 * tries + 1) = rnd' (2 * tries + 1) := h _ (by omega)
    simp [Banner.chooseGo, e1, e2]
  | succ fuel ih =>
    intro tries rnd rnd' h
    have e1 : rnd (2 * tries) = rnd' (2 * tries) := h _ (by omega)
    have e2 : rnd (2 * tries + 1) = rnd' (2 * tries + 1) := h _ (by omega)
    have hrec := ih (tries + 1) rnd rnd' (fun i hi => h i (by omega))
    simp only [Banner.chooseGo, e1, e2, hrec]

theorem chooseGo_inl (b : Banner.SafeBox) (W H : ℚ) (rnd : ℕ → ℚ) :
    ∀ (fuel tries i : ℕ) (x y : ℚ),
      Banner.chooseGo b W H rnd tries fuel = Sum.inl (i, x, y) →
      tries ≤ i ∧ i < tries + fuel ∧
        x = rnd (2 * i) * W ∧ y = rnd (2 * i + 1) * H ∧
        Banner.inSafeBox b (rnd (2 * i)) (rnd (2 * i + 1)) = false ∧
        (Banner.edgeBias (rnd (2 * i)) (rnd (2 * i + 1)) = true ∨ 15 < i) := by
  intro fuel
  induction fuel with
  | zero => intro tries i x y h; simp [Banner.chooseGo] at h
  | succ fuel ih =>
    intro tries i x y h
    simp only [Banner.chooseGo] at h
    split at h
    case isTrue hc =>
      obtain ⟨hns, he⟩ := Bool.and_eq_true .. ▸ hc
      have hsf : Banner.inSafeBox b (rnd (2 * tries)) (rnd (2 * tries + 1)) = false :=
        Bool.not_eq_true' .. ▸ hns
      obtain ⟨hi, hxy⟩ := Prod.mk.injEq .. ▸ Sum.inl.inj h
      obtain ⟨hx, hy⟩ := Prod.mk.injEq .. ▸ hxy
      subst hi
      exact ⟨le_refl _, by omega, hx.symm, hy.symm, hsf, Or.inl he⟩
    case isFalse =>
      split at h
      case isTrue hc =>
        obtain ⟨hns, ht⟩ := Bool.and_eq_true .. ▸ hc
        have hsf : Banner.inSafeBox b (rnd (2 * tries)) (rnd (2 * tries + 1)) = false :=
          Bool.not_eq_true' .. ▸ hns
        have h15 : 15 < tries := of_decide_eq_true ht
        obtain ⟨hi, hxy⟩ := Prod.mk.injEq .. ▸ Sum.inl.inj h
        obtain ⟨hx, hy⟩ := Prod.mk.injEq .. ▸ hxy
        subst hi
        exact ⟨le_refl _, by omega, hx.symm, hy.symm, hsf, Or.inr h15⟩
      case isFalse =>
        obtain ⟨h1, h2, h3, h4, h5, h6⟩ := ih (tries + 1) i x y h
        exact ⟨by omega, by omega, h3, h4, h5, h6⟩

theorem chooseGo_accepts (b : Banner.SafeBox) (W H : ℚ) (rnd : ℕ → ℚ)
    (tries fuel : ℕ)
    (h1 : Banner.inSafeBox b (rnd (2 * tries)) (rnd (2 * tries + 1)) = false)
    (h2 : Banner.edgeBias (rnd (2 * tries)) (rnd (2 * tries + 1)) = true ∨ 15 < tries) :
    Banner.chooseGo b W H rnd tries (fuel + 1) =
      Sum.inl (tries, rnd (2 * tries) * W, rnd (2 * tries + 1) * H) := by
  rcases Bool.eq_false_or_eq_true
      (Banner.edgeBias (rnd (2 * tries)) (rnd (2 * tries + 1))) with he | he
  · simp [Banner.chooseGo, h1, he]
  · have h15 : 15 < tries := h2.resolve_left (by simp [he])
    simp [Banner.chooseGo, h1, he, h15]

theorem banner_step_frame (sqrtQ : ℚ → ℚ) (m : Mouse) (noiseF : ℕ → ℕ → ℚ × ℚ)
    (dt : ℚ) (ts : List Banner.Tree) (ti : ℕ) :
    (Banner.step sqrtQ m noiseF dt ts).length = ts.length ∧
      ((Banner.step sqrtQ m noiseF dt ts)[ti]?).map Banner.Tree.cx
        = (ts[ti]?).map Banner.Tree.cx ∧
      ((Banner.step sqrtQ m noiseF dt ts)[ti]?).map Banner.Tree.cy
        = (ts[ti]?).map Banner.Tree.cy ∧
      ((Banner.step sqrtQ m noiseF dt ts)[ti]?).map Banner.Tree.scale
        = (ts[ti]?).map Banner.Tree.scale ∧
      ((Banner.step sqrtQ m noiseF dt ts)[ti]?).map (fun tr => tr.nodes.length)
        = (ts[ti]?).map (fun tr => tr.nodes.length) ∧
      ∀ ni : ℕ,
        (((Banner.step sqrtQ m noiseF dt ts)[ti]?).bind (fun tr => tr.nodes[ni]?)).map Node.ax
          = ((ts[ti]?).bind (fun tr => tr.nodes[ni]?)).map Node.ax ∧
        (((Banner.step sqrtQ m noiseF dt ts)[ti]?).bind (fun tr => tr.nodes[ni]?)).map Node.ay
          = ((ts[ti]?).bind (fun tr => tr.nodes[ni]?)).map Node.ay := by
  refine ⟨mapIdxQ_length _ ts, ?_⟩
  simp only [Banner.step, mapIdxQ_getElem?]
  cases hts : ts[ti]? with
  | none => simp
  | some tr =>
    refine ⟨by simp [Banner.stepTree], by simp [Banner.stepTree],
      by simp [Banner.stepTree], by simp [Banner.stepTree, mapIdxQ_length], ?_⟩
    intro ni
    simp only [Option.map_some', Option.some_bind, Banner.stepTree, mapIdxQ_getElem?]
    cases hn : tr.nodes[ni]? with
    | none => simp
    | some n => simp [Banner.stepNode]

theorem tree_step_frame (sqrtQ : ℚ → ℚ) (m : Mouse) (dt : ℚ)
    (ns : List Node) (i : ℕ) :
    (TreeCanvas.step sqrtQ m dt ns).length = ns.length ∧
      ((TreeCanvas.step sqrtQ m dt ns)[i]?).map Node.ax = (ns[i]?).map Node.ax ∧
      ((TreeCanvas.step sqrtQ m dt ns)[i]?).map Node.ay = (ns[i]?).map Node.ay := by
  refine ⟨by simp [TreeCanvas.step], ?_, ?_⟩ <;>
  · simp only [TreeCanvas.step, List.getElem?_map]
    cases hn : ns[i]? with
    | none => simp
    | some n => simp [TreeCanvas.stepNode]

/-- C9: one tick of the integrator mutates only node positions and
velocities.  In variant A, `step` preserves the number of trees, every
tree's center `(cx, cy)` and `scale`, every tree's node count, and every
node's anchor `(ax, ay)`; in variant B, `step` preserves the number of
nodes and every node's anchor — for every pointer state, noise stream,
`sqrtQ` and `dt`. -/
theorem C9_step_mutates_only_position_velocity :
    (∀ (sqrtQ : ℚ → ℚ) (m : Mouse) (noiseF : ℕ → ℕ → ℚ × ℚ) (dt : ℚ)
        (ts : List Banner.Tree) (ti : ℕ),
      (Banner.step sqrtQ m noiseF dt ts).length = ts.length ∧
        ((Banner.step sqrtQ m noiseF dt ts)[ti]?).map Banner.Tree.cx
          = (ts[ti]?).map Banner.Tree.cx ∧
        ((Banner.step sqrtQ m noiseF dt ts)[ti]?).map Banner.Tree.cy
          = (ts[ti]?).map Banner.Tree.cy ∧
        ((Banner.step sqrtQ m noiseF dt ts)[ti]?).map Banner.Tree.scale
          = (ts[ti]?).map Banner.Tree.scale ∧
        ((Banner.step sqrtQ m noiseF dt ts)[ti]?).map (fun tr => tr.nodes.length)
          = (ts[ti]?).map (fun tr => tr.nodes.length) ∧
        ∀ ni : ℕ,
          (((Banner.step sqrtQ m noiseF dt ts)[ti]?).bind (fun tr => tr.nodes[ni]?)).map Node.ax
            = ((ts[ti]?).bind (fun tr => tr.nodes[ni]?)).map Node.ax ∧
          (((Banner.step sqrtQ m noiseF dt ts)[ti]?).bind (fun tr => tr.nodes[ni]?)).map Node.ay
            = ((ts[ti]?).bind (fun tr => tr.nodes[ni]?)).map Node.ay) ∧
    (∀ (sqrtQ : ℚ → ℚ) (m : Mouse) (dt : ℚ) (ns : List Node) (i : ℕ),
      (TreeCanvas.step sqrtQ m dt ns).length = ns.length ∧
        ((TreeCanvas.step sqrtQ m dt ns)[i]?).map Node.ax = (ns[i]?).map Node.ax ∧
        ((TreeCanvas.step sqrtQ m dt ns)[i]?).map Node.ay = (ns[i]?).map Node.ay) :=
  ⟨fun sqrtQ m noiseF dt ts ti => banner_step_frame sqrtQ m noiseF dt ts ti,
   fun sqrtQ m dt ns i => tree_step_frame sqrtQ m dt ns i⟩

/-- C10: every node produced by variant B's statistical placement (canopy
and trunk alike) starts with its position equal to its anchor and zero
velocity, and the node count is `canopyNodes + trunkNodes = 265` — for
every surface size, every `x ** 0.75` interpretation and every pair of
random streams, hence at startup and after every resize (both call
`buildTree`). -/
theorem C10_buildTree_at_rest (W H : ℚ) (pow34 : ℚ → ℚ) (tS gS : ℕ → ℚ) :
    (TreeCanvas.buildTree W H pow34 tS gS).length
        = TreeCanvas.canopyNodes + TreeCanvas.trunkNodes ∧
      ∀ n ∈ TreeCanvas.buildTree W H pow34 tS gS,
        n.x = n.ax ∧ n.y = n.ay ∧ n.vx = 0 ∧ n.vy = 0 := by
  constructor
  · simp [TreeCanvas.buildTree]
  · intro n hn
    rcases List.mem_append.mp hn with h | h
    · obtain ⟨i, _, rfl⟩ := List.mem_map.mp h
      exact ⟨rfl, rfl, rfl, rfl⟩
    · obtain ⟨i, _, rfl⟩ := List.mem_map.mp h
      exact ⟨rfl, rfl, rfl, rfl⟩

/-- Witness for C10 at a concrete instantiation: surface 100 × 100,
identity `pow34`, constant random streams; the first canopy node is in the
list and is at rest, and the count evaluates to 265. -/
theorem C10_buildTree_at_rest_witness :
    (TreeCanvas.buildTree 100 100 id (fun _ => 0) (fun _ => 0)).length = 265 ∧
      ((TreeCanvas.canopyNode 100 100 id 0 0).x
          = (TreeCanvas.canopyNode 100 100 id 0 0).ax ∧
        (TreeCanvas.canopyNode 100 100 id 0 0).y
          = (TreeCanvas.canopyNode 100 100 id 0 0).ay ∧
        (TreeCanvas.canopyNode 100 100 id 0 0).vx = 0 ∧
        (TreeCanvas.canopyNode 100 100 id 0 0).vy = 0) := by
  have h := C10_buildTree_at_rest 100 100 id (fun _ => 0) (fun _ => 0)
  refine ⟨h.1.trans (by norm_num [TreeCanvas.canopyNodes, TreeCanvas.trunkNodes]), ?_⟩
  refine h.2 _ (List.mem_append_left _ (List.mem_map.mpr ⟨0, ?_, rfl⟩))
  exact List.mem_range.mpr (by norm_num [TreeCanvas.canopyNodes])
/-- C8: link rendering law of variant B: for an unordered pair of nodes a
segment is drawn exactly when the squared distance is strictly below
`linkDist²`, with opacity `linkAlpha * (1 - d²/max²)`; coincident nodes
draw at the full base `linkAlpha`; a pair exactly at the threshold draws
nothing (and the opacity formula evaluates to 0 there, so the cutoff is
visually seamless); the law is symmetric in the pair. -/
theorem C8_link_rendering_law :
    (∀ a b : Node,
      (TreeCanvas.linkDraw a b).isSome = true ↔
        (a.x - b.x) * (a.x - b.x) + (a.y - b.y) * (a.y - b.y) < TreeCanvas.linkMax2) ∧
    (∀ (a b : Node) (al : ℚ), TreeCanvas.linkDraw a b = some al →
      al = TreeCanvas.linkAlpha *
        (1 - ((a.x - b.x) * (a.x - b.x) + (a.y - b.y) * (a.y - b.y)) / TreeCanvas.linkMax2)) ∧
    (∀ a b : Node, a.x = b.x → a.y = b.y →
      TreeCanvas.linkDraw a b = some TreeCanvas.linkAlpha) ∧
    (∀ a b : Node,
      (a.x - b.x) * (a.x - b.x) + (a.y - b.y) * (a.y - b.y) = TreeCanvas.linkMax2 →
      TreeCanvas.linkDraw a b = none) ∧
    TreeCanvas.linkAlpha * (1 - TreeCanvas.linkMax2 / TreeCanvas.linkMax2) = 0 ∧
    (∀ a b : Node, TreeCanvas.linkDraw a b = TreeCanvas.linkDraw b a) := by
  refine ⟨?_, ?_, ?_, ?_, ?_, ?_⟩
  · intro a b
    simp only [TreeCanvas.linkDraw]
    split <;> simp_all
  · intro a b al h
    simp only [TreeCanvas.linkDraw] at h
    split at h
    · exact (Option.some.inj h).symm
    · exact absurd h (by simp)
  · intro a b hx hy
    simp [TreeCanvas.linkDraw, hx, hy, TreeCanvas.linkMax2, TreeCanvas.linkDist,
      TreeCanvas.linkAlpha]
  · intro a b h
    simp [TreeCanvas.linkDraw, h]
  · norm_num [TreeCanvas.linkMax2, TreeCanvas.linkDist, TreeCanvas.linkAlpha]
  · intro a b
    have hsym : (a.x - b.x) * (a.x - b.x) + (a.y - b.y) * (a.y - b.y)
        = (b.x - a.x) * (b.x - a.x) + (b.y - a.y) * (b.y - a.y) := by ring
    simp only [TreeCanvas.linkDraw, hsym]

/-- Witness for C8: a coincident pair renders at the base alpha, and a pair
exactly 34 apart (squared distance `34² = linkMax2`) renders nothing. -/
theorem C8_link_rendering_law_witness :
    TreeCanvas.linkDraw { ax := 0, ay := 0, x := 5, y := 6, vx := 0, vy := 0 }
        { ax := 1, ay := 1, x := 5, y := 6, vx := 1, vy := 1 }
      = some TreeCanvas.linkAlpha ∧
    TreeCanvas.linkDraw { ax := 0, ay := 0, x := 0, y := 0, vx := 0, vy := 0 }
        { ax := 0, ay := 0, x := 34, y := 0, vx := 0, vy := 0 } = none := by
  refine ⟨C8_link_rendering_law.2.2.1 _ _ rfl rfl, ?_⟩
  exact C8_link_rendering_law.2.2.2.1 _ _
    (by norm_num [TreeCanvas.linkMax2, TreeCanvas.linkDist])

/-- C5: a pointer exactly on a node's position cannot corrupt the node:
every division evaluated by the tick has a nonzero divisor — the `d || 1`
normalization fallback equals `1` at `d = 0` and is nonzero for every `d` —
and the tick's result equals the repulsion-free tick (in variant A with the
bounded noise jitter added to the velocity first), a finite rational value.
The hypothesis `sqrtQ 0 = 0` is exact in IEEE arithmetic. -/
theorem C5_pointer_on_node_safe :
    (∀ d : ℚ, jsOr d 1 ≠ 0) ∧ jsOr 0 1 = 1 ∧
    (∀ (sqrtQ : ℚ → ℚ) (m : Mouse) (noise : ℚ × ℚ) (dt : ℚ) (n : Node),
      m.x = n.x → m.y = n.y → sqrtQ 0 = 0 →
      (∀ q ∈ Banner.stepDivisors sqrtQ m n, q ≠ 0) ∧
      (m.active = true →
        Banner.stepNode sqrtQ m noise dt n =
          Banner.stepNodeNoRepel dt
            { n with vx := n.vx + (noise.1 - 0.5) * Banner.noiseStrength,
                     vy := n.vy + (noise.2 - 0.5) * Banner.noiseStrength })) ∧
    (∀ (sqrtQ : ℚ → ℚ) (m : Mouse) (dt : ℚ) (n : Node),
      m.x = n.x → m.y = n.y → sqrtQ 0 = 0 →
      (∀ q ∈ TreeCanvas.stepDivisors sqrtQ m n, q ≠ 0) ∧
      TreeCanvas.stepNode sqrtQ m dt n = TreeCanvas.stepNodeNoRepel dt n) := by
  refine ⟨?_, by norm_num [jsOr], ?_, ?_⟩
  · intro d
    unfold jsOr
    split
    · norm_num
    · assumption
  · intro sqrtQ m noise dt n hx hy hs
    constructor
    · intro q hq
      rcases hm : m.active with _ | _
      · simp [Banner.stepDivisors, hm] at hq
      · norm_num [Banner.stepDivisors, hm, hx, hy, hs, jsOr,
          Banner.hoverRadius] at hq
        rcases hq with rfl | rfl <;> norm_num
    · intro hact
      have hv : Banner.repelVel sqrtQ m noise n (Banner.springVel n)
          = Banner.springVel
              { n with vx := n.vx + (noise.1 - 0.5) * Banner.noiseStrength,
                       vy := n.vy + (noise.2 - 0.5) * Banner.noiseStrength } := by
        norm_num [Banner.repelVel, hact, hx, hy, hs, jsOr, Banner.hoverRadius,
          Banner.springVel, Prod.ext_iff]
        constructor <;> ring
      simp only [Banner.stepNode, Banner.stepNodeNoRepel, hv]
  · intro sqrtQ m dt n hx hy hs
    constructor
    · intro q hq
      norm_num [TreeCanvas.stepDivisors, hx, hy, hs, jsOr,
        TreeCanvas.repelRadius] at hq
      rcases hq with rfl | rfl <;> norm_num
    · have hv : TreeCanvas.repelVel sqrtQ m n (TreeCanvas.springVel n)
          = TreeCanvas.springVel n := by
        norm_num [TreeCanvas.repelVel, hx, hy, hs, jsOr, TreeCanvas.repelRadius]
      simp only [TreeCanvas.stepNode, TreeCanvas.stepNodeNoRepel, hv]

/-- Witness for C5 at a concrete input: pointer exactly on a node at
`(3, 4)` in both variants. -/
theorem C5_pointer_on_node_safe_witness :
    (Banner.stepNode (fun _ => 0) ⟨3, 4, true⟩ (1, 0) (1/60)
        { ax := 1, ay := 2, x := 3, y := 4, vx := 5, vy := 6 } =
      Banner.stepNodeNoRepel (1/60)
        { ax := 1, ay := 2, x := 3, y := 4,
          vx := 5 + ((1 : ℚ) - 0.5) * Banner.noiseStrength,
          vy := 6 + ((0 : ℚ) - 0.5) * Banner.noiseStrength }) ∧
    TreeCanvas.stepNode (fun _ => 0) ⟨3, 4, true⟩ (1/60)
        { ax := 1, ay := 2, x := 3, y := 4, vx := 5, vy := 6 } =
      TreeCanvas.stepNodeNoRepel (1/60)
        { ax := 1, ay := 2, x := 3, y := 4, vx := 5, vy := 6 } := by
  constructor
  · exact ((C5_pointer_on_node_safe.2.2.1 (fun _ => 0) ⟨3, 4, true⟩ (1, 0) (1/60)
      { ax := 1, ay := 2, x := 3, y := 4, vx := 5, vy := 6 } rfl rfl rfl).2 rfl)
  · exact (C5_pointer_on_node_safe.2.2.2 (fun _ => 0) ⟨3, 4, true⟩ (1/60)
      { ax := 1, ay := 2, x := 3, y := 4, vx := 5, vy := 6 } rfl rfl rfl).2

/-- C4 counterexample: in variant B one tick maps a node with velocity
`vx = 100` (anchor at its position, pointer far away) to `vx = 86`, which
is outside `[-maxSpeed, maxSpeed] = [-7, 7]` — tree-canvas.js has no speed
clamp, so the claim is false as stated over both step functions. -/
theorem C4_speed_clamp_counterexample :
    (TreeCanvas.stepNode (fun _ => 200) ⟨200, 0, true⟩ (1/50)
        { ax := 0, ay := 0, x := 0, y := 0, vx := 100, vy := 0 }).vx = 86 ∧
    Banner.maxSpeed = 7 ∧ ¬((86 : ℚ) ≤ 7) := by
  refine ⟨?_, by norm_num [Banner.maxSpeed], by norm_num⟩
  norm_num [TreeCanvas.stepNode, TreeCanvas.springVel, TreeCanvas.repelVel,
    TreeCanvas.returnStrength, TreeCanvas.damping, TreeCanvas.repelRadius]

/-- C4 (amended): in variant A every tick leaves both velocity components
in `[-maxSpeed, maxSpeed]`; the clamp is applied per component after
damping, and the position update uses the clamped velocity.  Variant B has
no speed clamp: its post-tick velocity exceeds any bound `M` from a
suitable state (e.g. `vx = 2 M`). -/
theorem C4_speed_clamp :
    (∀ (sqrtQ : ℚ → ℚ) (m : Mouse) (noise : ℚ × ℚ) (dt : ℚ) (n : Node),
      -Banner.maxSpeed ≤ (Banner.stepNode sqrtQ m noise dt n).vx ∧
        (Banner.stepNode sqrtQ m noise dt n).vx ≤ Banner.maxSpeed ∧
        -Banner.maxSpeed ≤ (Banner.stepNode sqrtQ m noise dt n).vy ∧
        (Banner.stepNode sqrtQ m noise dt n).vy ≤ Banner.maxSpeed) ∧
    (∀ (sqrtQ : ℚ → ℚ) (m : Mouse) (noise : ℚ × ℚ) (dt : ℚ) (n : Node),
      (Banner.stepNode sqrtQ m noise dt n).vx
          = Banner.clamp
              ((Banner.repelVel sqrtQ m noise n (Banner.springVel n)).1 * Banner.damping)
              (-Banner.maxSpeed) Banner.maxSpeed ∧
        (Banner.stepNode sqrtQ m noise dt n).vy
          = Banner.clamp
              ((Banner.repelVel sqrtQ m noise n (Banner.springVel n)).2 * Banner.damping)
              (-Banner.maxSpeed) Banner.maxSpeed ∧
        (Banner.stepNode sqrtQ m noise dt n).x
          = n.x + (Banner.stepNode sqrtQ m noise dt n).vx * (dt * 60) ∧
        (Banner.stepNode sqrtQ m noise dt n).y
          = n.y + (Banner.stepNode sqrtQ m noise dt n).vy * (dt * 60)) ∧
    (∀ M : ℚ, 0 < M →
      M < (TreeCanvas.stepNode (fun _ => 200) ⟨200, 0, true⟩ (1/50)
        { ax := 0, ay := 0, x := 0, y := 0, vx := 2 * M, vy := 0 }).vx) := by
  have hms : -Banner.maxSpeed ≤ Banner.maxSpeed := by norm_num [Banner.maxSpeed]
  refine ⟨?_, ?_, ?_⟩
  · intro sqrtQ m noise dt n
    have h1 := clamp_mem
      (v := (Banner.repelVel sqrtQ m noise n (Banner.springVel n)).1 * Banner.damping) hms
    have h2 := clamp_mem
      (v := (Banner.repelVel sqrtQ m noise n (Banner.springVel n)).2 * Banner.damping) hms
    exact ⟨h1.1, h1.2, h2.1, h2.2⟩
  · intro sqrtQ m noise dt n
    exact ⟨rfl, rfl, rfl, rfl⟩
  · intro M hM
    have h : (TreeCanvas.stepNode (fun _ => 200) ⟨200, 0, true⟩ (1/50)
        { ax := 0, ay := 0, x := 0, y := 0, vx := 2 * M, vy := 0 }).vx
        = 2 * M * TreeCanvas.damping := by
      norm_num [TreeCanvas.stepNode, TreeCanvas.springVel, TreeCanvas.repelVel,
        TreeCanvas.returnStrength, TreeCanvas.repelRadius]
    rw [h]
    norm_num [TreeCanvas.damping]
    linarith

/-- Witness for C4 at a concrete input: a variant-A tick from a fast node
stays clamped, and variant B exceeds the bound `M = 10`. -/
theorem C4_speed_clamp_witness :
    (-Banner.maxSpeed ≤ (Banner.stepNode (fun _ => 0) ⟨0, 0, false⟩ (0, 0) (1/60)
        { ax := 0, ay := 0, x := 500, y := 0, vx := 100, vy := 0 }).vx ∧
      (Banner.stepNode (fun _ => 0) ⟨0, 0, false⟩ (0, 0) (1/60)
        { ax := 0, ay := 0, x := 500, y := 0, vx := 100, vy := 0 }).vx ≤ Banner.maxSpeed) ∧
    (10 : ℚ) < (TreeCanvas.stepNode (fun _ => 200) ⟨200, 0, true⟩ (1/50)
        { ax := 0, ay := 0, x := 0, y := 0, vx := 2 * 10, vy := 0 }).vx := by
  refine ⟨?_, C4_speed_clamp.2.2 10 (by norm_num)⟩
  have h := C4_speed_clamp.1 (fun _ => 0) ⟨0, 0, false⟩ (0, 0) (1/60)
    { ax := 0, ay := 0, x := 500, y := 0, vx := 100, vy := 0 }
  exact ⟨h.1, h.2.1⟩

/-- C3 counterexample: variant B's force law is linear, not quadratic: at
distance `d = 55` (half the radius) the code's force is `0.275 = 11/40`,
while `t² · repelStrength` would be `0.1375 = 11/80`. -/
theorem C3_force_law_counterexample :
    TreeCanvas.forceMag 55 = 11/40 ∧
      (1 - 55 / TreeCanvas.repelRadius)^2 * TreeCanvas.repelStrength = 11/80 ∧
      (11 : ℚ)/40 ≠ 11/80 := by
  norm_num [TreeCanvas.forceMag, TreeCanvas.repelRadius, TreeCanvas.repelStrength]

/-- C3 (amended): the repulsion force magnitude is quadratic in
`t = 1 - d/R` in variant A (`t² · repelStrength`) and linear in variant B
(`t · repelStrength`); in both variants it is strictly increasing in
closeness on `[0, R)` and exactly zero at `d ≥ R`; and the step's repulsion
block applies exactly this magnitude (scaled by the push constant 16
resp. 18 and the normalized direction). -/
theorem C3_force_law :
    (∀ d : ℚ, d < Banner.hoverRadius →
      Banner.forceMag d = (1 - d / Banner.hoverRadius)^2 * Banner.repelStrength) ∧
    (∀ d : ℚ, Banner.hoverRadius ≤ d → Banner.forceMag d = 0) ∧
    (∀ d1 d2 : ℚ, 0 ≤ d1 → d1 < d2 → d2 < Banner.hoverRadius →
      Banner.forceMag d2 < Banner.forceMag d1) ∧
    (∀ d : ℚ, d < TreeCanvas.repelRadius →
      TreeCanvas.forceMag d = (1 - d / TreeCanvas.repelRadius) * TreeCanvas.repelStrength) ∧
    (∀ d : ℚ, TreeCanvas.repelRadius ≤ d → TreeCanvas.forceMag d = 0) ∧
    (∀ d1 d2 : ℚ, 0 ≤ d1 → d1 < d2 → d2 < TreeCanvas.repelRadius →
      TreeCanvas.forceMag d2 < TreeCanvas.forceMag d1) ∧
    (∀ (sqrtQ : ℚ → ℚ) (m : Mouse) (noise : ℚ × ℚ) (n : Node) (v : ℚ × ℚ),
      m.active = true →
      sqrtQ ((n.x - m.x) * (n.x - m.x) + (n.y - m.y) * (n.y - m.y)) < Banner.hoverRadius →
      Banner.repelVel sqrtQ m noise n v =
        (v.1 + (n.x - m.x) / jsOr (sqrtQ ((n.x - m.x) * (n.x - m.x) + (n.y - m.y) * (n.y - m.y))) 1
            * Banner.forceMag (sqrtQ ((n.x - m.x) * (n.x - m.x) + (n.y - m.y) * (n.y - m.y))) * 16
            + (noise.1 - 0.5) * Banner.noiseStrength,
         v.2 + (n.y - m.y) / jsOr (sqrtQ ((n.x - m.x) * (n.x - m.x) + (n.y - m.y) * (n.y - m.y))) 1
            * Banner.forceMag (sqrtQ ((n.x - m.x) * (n.x - m.x) + (n.y - m.y) * (n.y - m.y))) * 16
            + (noise.2 - 0.5) * Banner.noiseStrength)) ∧
    (∀ (sqrtQ : ℚ → ℚ) (m : Mouse) (n : Node) (v : ℚ × ℚ),
      sqrtQ ((n.x - m.x) * (n.x - m.x) + (n.y - m.y) * (n.y - m.y)) < TreeCanvas.repelRadius →
      TreeCanvas.repelVel sqrtQ m n v =
        (v.1 + (n.x - m.x) / jsOr (sqrtQ ((n.x - m.x) * (n.x - m.x) + (n.y - m.y) * (n.y - m.y))) 1
            * TreeCanvas.forceMag (sqrtQ ((n.x - m.x) * (n.x - m.x) + (n.y - m.y) * (n.y - m.y))) * 18,
         v.2 + (n.y - m.y) / jsOr (sqrtQ ((n.x - m.x) * (n.x - m.x) + (n.y - m.y) * (n.y - m.y))) 1
            * TreeCanvas.forceMag (sqrtQ ((n.x - m.x) * (n.x - m.x) + (n.y - m.y) * (n.y - m.y))) * 18)) := by
  refine ⟨?_, ?_, ?_, ?_, ?_, ?_, ?_, ?_⟩
  · intro d hd
    rw [Banner.forceMag, if_pos hd]
    ring
  · intro d hd
    rw [Banner.forceMag, if_neg (not_lt.mpr hd)]
  · intro d1 d2 h0 h12 h2R
    have h1R : d1 < Banner.hoverRadius := lt_trans h12 h2R
    rw [Banner.forceMag, if_pos h2R, Banner.forceMag, if_pos h1R]
    have h95 : (0 : ℚ) < Banner.hoverRadius := by norm_num [Banner.hoverRadius]
    have ht2 : (0 : ℚ) ≤ 1 - d2 / Banner.hoverRadius := by
      have := (div_lt_one h95).mpr h2R
      linarith
    have htlt : 1 - d2 / Banner.hoverRadius < 1 - d1 / Banner.hoverRadius := by
      have h' : d1 / Banner.hoverRadius < d2 / Banner.hoverRadius := by
        exact div_lt_div_of_pos_right h12 h95
      linarith
    have hsq := mul_self_lt_mul_self ht2 htlt
    have hrs : (0 : ℚ) < Banner.repelStrength := by norm_num [Banner.repelStrength]
    exact mul_lt_mul_of_pos_right hsq hrs
  · intro d hd
    rw [TreeCanvas.forceMag, if_pos hd]
  · intro d hd
    rw [TreeCanvas.forceMag, if_neg (not_lt.mpr hd)]
  · intro d1 d2 h0 h12 h2R
    have h1R : d1 < TreeCanvas.repelRadius := lt_trans h12 h2R
    rw [TreeCanvas.forceMag, if_pos h2R, TreeCanvas.forceMag, if_pos h1R]
    have h110 : (0 : ℚ) < TreeCanvas.repelRadius := by norm_num [TreeCanvas.repelRadius]
    have h' : d1 / TreeCanvas.repelRadius < d2 / TreeCanvas.repelRadius := by
      exact div_lt_div_of_pos_right h12 h110
    have hrs : (0 : ℚ) < TreeCanvas.repelStrength := by
      norm_num [TreeCanvas.repelStrength]
    apply mul_lt_mul_of_pos_right _ hrs
    linarith
  · intro sqrtQ m noise n v hact hd
    rw [Banner.repelVel]
    rw [if_pos hact]
    simp only [if_pos hd, Banner.forceMag]
  · intro sqrtQ m n v hd
    rw [TreeCanvas.repelVel]
    simp only [if_pos hd, TreeCanvas.forceMag]

/-- Witness for C3 at concrete distances `d = 10 < 20 < R` and `d = 200 ≥ R`,
and concrete repulsion-block inputs. -/
theorem C3_force_law_witness :
    Banner.forceMag 20 < Banner.forceMag 10 ∧
      Banner.forceMag 10 = (1 - 10 / Banner.hoverRadius)^2 * Banner.repelStrength ∧
      Banner.forceMag 200 = 0 ∧
      TreeCanvas.forceMag 20 < TreeCanvas.forceMag 10 ∧
      TreeCanvas.forceMag 10
        = (1 - 10 / TreeCanvas.repelRadius) * TreeCanvas.repelStrength ∧
      TreeCanvas.forceMag 200 = 0 := by
  refine ⟨C3_force_law.2.2.1 10 20 (by norm_num) (by norm_num)
      (by norm_num [Banner.hoverRadius]),
    C3_force_law.1 10 (by norm_num [Banner.hoverRadius]),
    C3_force_law.2.1 200 (by norm_num [Banner.hoverRadius]),
    C3_force_law.2.2.2.2.2.1 10 20 (by norm_num) (by norm_num)
      (by norm_num [TreeCanvas.repelRadius]),
    C3_force_law.2.2.2.1 10 (by norm_num [TreeCanvas.repelRadius]),
    C3_force_law.2.2.2.2.1 200 (by norm_num [TreeCanvas.repelRadius])⟩

/-- C2 counterexample: in variant B the step ignores `active`: with
`active = false` and stored pointer coordinates `(5, 0)` (within the 110px
radius of a node at the origin), one tick gives the node velocity
`vx = -8.127 ≠ 0`, while the repulsion-free tick leaves `vx = 0` — the
repulsion term did contribute despite the inactive pointer. -/
theorem C2_inactive_pointer_counterexample :
    (TreeCanvas.stepNode (fun _ => 5) ⟨5, 0, false⟩ (1/50)
        { ax := 0, ay := 0, x := 0, y := 0, vx := 0, vy := 0 }).vx = -8127/1000 ∧
    (TreeCanvas.stepNodeNoRepel (1/50)
        { ax := 0, ay := 0, x := 0, y := 0, vx := 0, vy := 0 }).vx = 0 ∧
    (-8127/1000 : ℚ) ≠ 0 := by
  refine ⟨?_, ?_, by norm_num⟩
  · norm_num [TreeCanvas.stepNode, TreeCanvas.springVel, TreeCanvas.repelVel,
      TreeCanvas.returnStrength, TreeCanvas.damping, TreeCanvas.repelRadius,
      TreeCanvas.repelStrength, jsOr]
  · norm_num [TreeCanvas.stepNodeNoRepel, TreeCanvas.springVel,
      TreeCanvas.returnStrength, TreeCanvas.damping]

/-- C2 (amended): in variant A an inactive pointer contributes no repulsion
whatever the stored coordinates and whatever `sqrtQ`: the tick equals the
repulsion-free tick.  In variant B the step never reads `active` (its
result depends only on the stored coordinates), and after pointer-leave the
sentinel `(-9999, -9999)` puts every node with nonnegative coordinates
outside the repel radius, so the tick equals the repulsion-free tick
there. -/
theorem C2_inactive_pointer :
    (∀ (sqrtQ : ℚ → ℚ) (m : Mouse) (noise : ℚ × ℚ) (dt : ℚ) (n : Node),
      m.active = false →
      Banner.stepNode sqrtQ m noise dt n = Banner.stepNodeNoRepel dt n) ∧
    (∀ (sqrtQ : ℚ → ℚ) (m m' : Mouse) (dt : ℚ) (n : Node),
      m.x = m'.x → m.y = m'.y →
      TreeCanvas.stepNode sqrtQ m dt n = TreeCanvas.stepNode sqrtQ m' dt n) ∧
    (∀ (sqrtQ : ℚ → ℚ) (dt : ℚ) (n : Node),
      0 ≤ n.x → 0 ≤ n.y →
      0 ≤ sqrtQ ((n.x - (-9999)) * (n.x - (-9999)) + (n.y - (-9999)) * (n.y - (-9999))) →
      (sqrtQ ((n.x - (-9999)) * (n.x - (-9999)) + (n.y - (-9999)) * (n.y - (-9999))))^2
          = (n.x - (-9999)) * (n.x - (-9999)) + (n.y - (-9999)) * (n.y - (-9999)) →
      TreeCanvas.stepNode sqrtQ ⟨-9999, -9999, false⟩ dt n
        = TreeCanvas.stepNodeNoRepel dt n) := by
  refine ⟨?_, ?_, ?_⟩
  · intro sqrtQ m noise dt n hm
    have hv : Banner.repelVel sqrtQ m noise n (Banner.springVel n)
        = Banner.springVel n := by
      rw [Banner.repelVel, hm]
      simp
    simp only [Banner.stepNode, Banner.stepNodeNoRepel, hv]
  · intro sqrtQ m m' dt n hx hy
    simp only [TreeCanvas.stepNode, TreeCanvas.repelVel, hx, hy]
  · intro sqrtQ dt n hx hy hd0 hdsq
    set d := sqrtQ ((n.x - (-9999)) * (n.x - (-9999)) + (n.y - (-9999)) * (n.y - (-9999))) with hdd
    have hfar : ¬(d < TreeCanvas.repelRadius) := by
      intro hlt
      rw [TreeCanvas.repelRadius] at hlt
      have hsq : d * d < 110 * 110 := by nlinarith
      have hge : (9999 : ℚ) * 9999 ≤ (n.x - (-9999)) * (n.x - (-9999)) := by nlinarith
      have hy2 : (0 : ℚ) ≤ (n.y - (-9999)) * (n.y - (-9999)) := by nlinarith
      have : d * d = (n.x - (-9999)) * (n.x - (-9999)) + (n.y - (-9999)) * (n.y - (-9999)) := by
        have := hdsq
        nlinarith [hdsq]
      nlinarith
    have hv : TreeCanvas.repelVel sqrtQ ⟨-9999, -9999, false⟩ n (TreeCanvas.springVel n)
        = TreeCanvas.springVel n := by
      rw [TreeCanvas.repelVel]
      simp only
      rw [if_neg hfar]
    simp only [TreeCanvas.stepNode, TreeCanvas.stepNodeNoRepel, hv]

/-- Witness for C2 at concrete inputs: an inactive pointer at `(4, 7)` in
variant A; two variant-B mice agreeing on coordinates but not on `active`;
and the sentinel pointer against a node at `(0, 3333)` whose sentinel
distance `√(9999² + 13332²) = 16665` is exact. -/
theorem C2_inactive_pointer_witness :
    (Banner.stepNode (fun _ => 0) ⟨4, 7, false⟩ (1, 1) (1/60)
        { ax := 0, ay := 0, x := 4, y := 7, vx := 1, vy := 2 }
      = Banner.stepNodeNoRepel (1/60)
        { ax := 0, ay := 0, x := 4, y := 7, vx := 1, vy := 2 }) ∧
    (TreeCanvas.stepNode (fun _ => 5) ⟨5, 0, false⟩ (1/50)
        { ax := 0, ay := 0, x := 0, y := 0, vx := 0, vy := 0 }
      = TreeCanvas.stepNode (fun _ => 5) ⟨5, 0, true⟩ (1/50)
        { ax := 0, ay := 0, x := 0, y := 0, vx := 0, vy := 0 }) ∧
    (TreeCanvas.stepNode (fun _ => 16665) ⟨-9999, -9999, false⟩ (1/60)
        { ax := 1, ay := 2, x := 0, y := 3333, vx := 3, vy := 4 }
      = TreeCanvas.stepNodeNoRepel (1/60)
        { ax := 1, ay := 2, x := 0, y := 3333, vx := 3, vy := 4 }) := by
  refine ⟨C2_inactive_pointer.1 (fun _ => 0) ⟨4, 7, false⟩ (1, 1) (1/60) _ rfl,
    C2_inactive_pointer.2.1 (fun _ => 5) ⟨5, 0, false⟩ ⟨5, 0, true⟩ (1/50) _ rfl rfl,
    C2_inactive_pointer.2.2 (fun _ => 16665) (1/60)
      { ax := 1, ay := 2, x := 0, y := 3333, vx := 3, vy := 4 }
      (by norm_num) (by norm_num) (by norm_num) (by norm_num)⟩

/-- C1 counterexample: two subdivisions of the same total time
`T = 0.02 s` — one step of `0.02` versus two steps of `0.01`, all steps
positive and below the `0.033` clamp — leave a pointer-inactive node that
started 50 px from its anchor at final positions more than 1 px apart, far
beyond numerical tolerance (exact rational arithmetic). -/
theorem C1_frame_rate_counterexample :
    (0 : ℚ) < 1/50 ∧ (1/50 : ℚ) ≤ 0.033 ∧
    (0 : ℚ) < 1/100 ∧ (1/100 : ℚ) ≤ 0.033 ∧
    (1/50 : ℚ) = 1/100 + 1/100 ∧
    (Banner.runNode (fun _ => 0) ⟨-9999, -9999, false⟩ (0, 0) [1/50]
          { ax := 0, ay := 0, x := 50, y := 0, vx := 0, vy := 0 }).x
        - (Banner.runNode (fun _ => 0) ⟨-9999, -9999, false⟩ (0, 0) [1/100, 1/100]
          { ax := 0, ay := 0, x := 50, y := 0, vx := 0, vy := 0 }).x > 1 := by
  refine ⟨by norm_num, by norm_num, by norm_num, by norm_num, by norm_num, ?_⟩
  norm_num [Banner.runNode, Banner.stepNode, Banner.springVel, Banner.repelVel,
    Banner.clamp, Banner.spring, Banner.damping, Banner.maxSpeed, max_def, min_def]

/-- C1 (amended): the integrator is not frame-rate independent.  What holds:
in both variants the per-tick velocity update does not depend on `dt` and
the per-tick displacement is exactly `v · dt · 60` (linear in `dt`); but the
final position after a fixed total time depends on the subdivision into
steps — subdividing `T = 0.02 s` into one step versus two equal steps
(every step below the `0.033` clamp) moves a pointer-inactive node starting
50 px from its anchor to final positions more than 1 px apart. -/
theorem C1_frame_rate_dependence :
    (∀ (sqrtQ : ℚ → ℚ) (m : Mouse) (noise : ℚ × ℚ) (dt dt' : ℚ) (n : Node),
      (Banner.stepNode sqrtQ m noise dt n).vx = (Banner.stepNode sqrtQ m noise dt' n).vx ∧
      (Banner.stepNode sqrtQ m noise dt n).vy = (Banner.stepNode sqrtQ m noise dt' n).vy ∧
      (Banner.stepNode sqrtQ m noise dt n).x
        = n.x + (Banner.stepNode sqrtQ m noise dt n).vx * (dt * 60) ∧
      (Banner.stepNode sqrtQ m noise dt n).y
        = n.y + (Banner.stepNode sqrtQ m noise dt n).vy * (dt * 60)) ∧
    (∀ (sqrtQ : ℚ → ℚ) (m : Mouse) (dt dt' : ℚ) (n : Node),
      (TreeCanvas.stepNode sqrtQ m dt n).vx = (TreeCanvas.stepNode sqrtQ m dt' n).vx ∧
      (TreeCanvas.stepNode sqrtQ m dt n).vy = (TreeCanvas.stepNode sqrtQ m dt' n).vy ∧
      (TreeCanvas.stepNode sqrtQ m dt n).x
        = n.x + (TreeCanvas.stepNode sqrtQ m dt n).vx * (dt * 60) ∧
      (TreeCanvas.stepNode sqrtQ m dt n).y
        = n.y + (TreeCanvas.stepNode sqrtQ m dt n).vy * (dt * 60)) ∧
    (Banner.runNode (fun _ => 0) ⟨-9999, -9999, false⟩ (0, 0) [1/50]
          { ax := 0, ay := 0, x := 50, y := 0, vx := 0, vy := 0 }).x
        ≠ (Banner.runNode (fun _ => 0) ⟨-9999, -9999, false⟩ (0, 0) [1/100, 1/100]
          { ax := 0, ay := 0, x := 50, y := 0, vx := 0, vy := 0 }).x := by
  refine ⟨?_, ?_, ?_⟩
  · intro sqrtQ m noise dt dt' n
    exact ⟨rfl, rfl, rfl, rfl⟩
  · intro sqrtQ m dt dt' n
    exact ⟨rfl, rfl, rfl, rfl⟩
  · norm_num [Banner.runNode, Banner.stepNode, Banner.springVel, Banner.repelVel,
      Banner.clamp, Banner.spring, Banner.damping, Banner.maxSpeed, max_def, min_def]

/-- C6: `chooseTreeCenter` always terminates and returns a point inside the
surface `[0, W) × [0, H)`, for every safe-zone configuration (including one
covering the whole surface) — the loop body runs at most 40 times
(`chooseGo` is entered with fuel 40 and consumes one unit per candidate)
and the result depends only on the first 82 draws of the random stream
(40 candidate pairs plus the one fallback pair). -/
theorem C6_placement_terminates (b : Banner.SafeBox) (W H : ℚ) (rnd : ℕ → ℚ)
    (hr : ∀ i, 0 ≤ rnd i ∧ rnd i < 1) (hW : 0 < W) (hH : 0 < H) :
    (0 ≤ (Banner.chooseTreeCenter b W H rnd).1 ∧
      (Banner.chooseTreeCenter b W H rnd).1 < W ∧
      0 ≤ (Banner.chooseTreeCenter b W H rnd).2 ∧
      (Banner.chooseTreeCenter b W H rnd).2 < H) ∧
    (∀ rnd' : ℕ → ℚ, (∀ i, i < 82 → rnd i = rnd' i) →
      Banner.chooseTreeCenter b W H rnd = Banner.chooseTreeCenter b W H rnd') := by
  constructor
  · exact chooseGo_bounds b W H rnd hr hW hH 40 0
  · intro rnd' h
    have heq : Banner.chooseTreeCenterR b W H rnd = Banner.chooseTreeCenterR b W H rnd' :=
      chooseGo_congr b W H 40 0 rnd rnd' (fun i hi => h i (by omega))
    show Banner.pointOf (Banner.chooseTreeCenterR b W H rnd)
        = Banner.pointOf (Banner.chooseTreeCenterR b W H rnd')
    rw [heq]

/-- Witness for C6: a safe zone covering the whole surface and the constant
stream `1/2` (every candidate rejected, fallback taken): the result still
lies inside a 100 × 100 surface. -/
theorem C6_placement_terminates_witness :
    0 ≤ (Banner.chooseTreeCenter ⟨-1, 2, -1, 2⟩ 100 100 (fun _ => 1/2)).1 ∧
      (Banner.chooseTreeCenter ⟨-1, 2, -1, 2⟩ 100 100 (fun _ => 1/2)).1 < 100 ∧
      0 ≤ (Banner.chooseTreeCenter ⟨-1, 2, -1, 2⟩ 100 100 (fun _ => 1/2)).2 ∧
      (Banner.chooseTreeCenter ⟨-1, 2, -1, 2⟩ 100 100 (fun _ => 1/2)).2 < 100 :=
  (C6_placement_terminates ⟨-1, 2, -1, 2⟩ 100 100 (fun _ => 1/2)
    (fun _ => ⟨by norm_num, by norm_num⟩) (by norm_num) (by norm_num)).1

/-- C7 counterexample: the relaxation kicks in only when the zero-based try
index exceeds 15 — i.e. after 16 failed tries, not 15.  With a stream whose
tries 0‥14 land inside the default safe zone, whose 16th candidate
(index 15) is `(0.5, 0.8)` — outside the safe zone but failing edge bias —
and all later candidates back inside the safe zone, the loop accepts
nothing (the result is the fallback `Sum.inr`), even though after 15 failed
tries a candidate outside the safe zone was offered: the claim's "after 15
failed tries any point outside the safe zone is accepted" is false. -/
theorem C7_loop_acceptance_counterexample :
    Banner.inSafeBox Banner.defaultSafeBox
        ((fun i => if i = 30 then (1/2 : ℚ) else if i = 31 then 4/5 else 1/2) 30)
        ((fun i => if i = 30 then (1/2 : ℚ) else if i = 31 then 4/5 else 1/2) 31) = false ∧
    Banner.chooseTreeCenterR Banner.defaultSafeBox 100 100
        (fun i => if i = 30 then (1/2 : ℚ) else if i = 31 then 4/5 else 1/2)
      = Sum.inr (50, 50) := by
  constructor
  · norm_num [Banner.inSafeBox, Banner.defaultSafeBox]
  · norm_num [Banner.chooseTreeCenterR, Banner.chooseGo, Banner.inSafeBox,
      Banner.edgeBias, Banner.defaultSafeBox]

/-- C7 (amended): every center the retry loop accepts is outside the safe
zone; on try indices 0‥15 (the first 16 attempts) the edge-bias predicate
is additionally required, and from try index 16 onward (after 16 failed
tries) any candidate outside the safe zone is accepted immediately. -/
theorem C7_loop_acceptance (b : Banner.SafeBox) (W H : ℚ) (rnd : ℕ → ℚ) :
    (∀ (i : ℕ) (x y : ℚ),
      Banner.chooseTreeCenterR b W H rnd = Sum.inl (i, x, y) →
      i < 40 ∧ x = rnd (2 * i) * W ∧ y = rnd (2 * i + 1) * H ∧
        Banner.inSafeBox b (rnd (2 * i)) (rnd (2 * i + 1)) = false ∧
        (i ≤ 15 → Banner.edgeBias (rnd (2 * i)) (rnd (2 * i + 1)) = true)) ∧
    (∀ tries fuel : ℕ,
      Banner.inSafeBox b (rnd (2 * tries)) (rnd (2 * tries + 1)) = false →
      (Banner.edgeBias (rnd (2 * tries)) (rnd (2 * tries + 1)) = true ∨ 15 < tries) →
      Banner.chooseGo b W H rnd tries (fuel + 1)
        = Sum.inl (tries, rnd (2 * tries) * W, rnd (2 * tries + 1) * H)) := by
  constructor
  · intro i x y h
    obtain ⟨_, h2, h3, h4, h5, h6⟩ := chooseGo_inl b W H rnd 40 0 i x y h
    exact ⟨by omega, h3, h4, h5, fun hle => h6.resolve_right (by omega)⟩
  · exact chooseGo_accepts b W H rnd

/-- Witness for C7: with the constant-zero stream the very first candidate
`(0, 0)` is outside the default safe zone and edge-biased, so try 0 accepts
it, and the characterization applies to that acceptance. -/
theorem C7_loop_acceptance_witness :
    Banner.chooseGo Banner.defaultSafeBox 100 100 (fun _ => 0) 0 40
      = Sum.inl (0, (fun _ => (0:ℚ)) (2 * 0) * 100, (fun _ => (0:ℚ)) (2 * 0 + 1) * 100) ∧
    (0 : ℕ) < 40 ∧
    Banner.inSafeBox Banner.defaultSafeBox ((fun _ => (0:ℚ)) (2 * 0))
      ((fun _ => (0:ℚ)) (2 * 0 + 1)) = false := by
  have hsafe : Banner.inSafeBox Banner.defaultSafeBox ((fun _ => (0:ℚ)) (2 * 0))
      ((fun _ => (0:ℚ)) (2 * 0 + 1)) = false := by
    norm_num [Banner.inSafeBox, Banner.defaultSafeBox]
  have hedge : Banner.edgeBias ((fun _ => (0:ℚ)) (2 * 0)) ((fun _ => (0:ℚ)) (2 * 0 + 1))
      = true := by
    norm_num [Banner.edgeBias]
  have hacc := (C7_loop_acceptance Banner.defaultSafeBox 100 100 (fun _ => 0)).2
    0 39 hsafe (Or.inl hedge)
  have hchar := (C7_loop_acceptance Banner.defaultSafeBox 100 100 (fun _ => 0)).1
    0 ((fun _ => (0:ℚ)) (2 * 0) * 100) ((fun _ => (0:ℚ)) (2 * 0 + 1) * 100) hacc
  exact ⟨hacc, hchar.1, hchar.2.2.2.1⟩
